import Mathlib

/-!
Verification of GitToPDF against its design specification.

The repository's document renderer lives in `csv-to-pdf.py`
(`generate_pdf_from_csv`): it validates a 1-based inclusive row range,
slices the CSV rows, and streams each selected row through a fixed FPDF
template (title, "Problem Statement:" section, "Java Code:" section,
inter-record separator).  The batch-enrichment loop lives in
`usinggroq.py` (`process_csv_file`): rows in a selected range whose
`refined_problem` field is blank are filled in from a refinement
function; non-blank rows are skipped.

We embed the renderer as a pure function from the in-memory row list to
the sequence of PDF primitive emissions (`Item`), mirroring each
`pdf.add_page` / `pdf.set_font` / `pdf.cell` / `pdf.multi_cell` /
`pdf.ln` call in source order.  File I/O (reading the CSV, writing the
PDF bytes) is outside the embedding; the validation logic and the whole
layout loop are embedded faithfully.  The FPDF base class used here is
never subclassed and its default `footer` hook emits nothing, so the
item stream contains no footer/page-number emission; the constructor
`Item.pageNumberStamp` exists in the item vocabulary so that its absence
from every rendered document is a statable fact.
-/

deriving instance DecidableEq for Except

/-- Python's truthiness-plus-strip test: `s and s.strip()` is falsy
exactly when every character of `s` is whitespace (including `s = ""`).
Implemented on the character list so the kernel can evaluate it (the
built-in `String.trim` is defined by well-founded recursion on byte
positions and does not reduce). -/
def isBlank (s : String) : Bool := s.data.all Char.isWhitespace

/-- Python's `line.rstrip()`: drop trailing whitespace characters,
keeping leading indentation (`csv-to-pdf.py` line 81). -/
def rstrip (s : String) : String := ⟨(s.data.reverse.dropWhile Char.isWhitespace).reverse⟩

/-- Split a character list at every character satisfying `p`, keeping
empty segments, as Python's `str.split(sep)` does.  `splitChars p []`
is `[[]]`, matching `"".split(sep) == [""]`. -/
def splitChars (p : Char → Bool) : List Char → List (List Char)
  | [] => [[]]
  | c :: rest =>
    let r := splitChars p rest
    if p c then [] :: r
    else
      match r with
      | [] => [[c]]
      | seg :: more => (c :: seg) :: more

/-- Python's `s.split('\n')` (`csv-to-pdf.py` line 79), on executable
character lists. -/
def splitNl (s : String) : List String := (splitChars (fun c => c == '\n') s.data).map String.mk

/-- A data row of the CSV as consumed by `generate_pdf_from_csv`
(`csv-to-pdf.py` lines 40-42).  Each field is `Option String`: `none`
models a missing key in the `csv.DictReader` dict, matching the
`row.get(key, default)` accesses in the source. -/
structure Row where
  refined_problem : Option String
  java_code : Option String
  directory_name : Option String
deriving DecidableEq, Repr

/-- Default row used only as the (never-reached) fallback of `List.getD`. -/
def defaultRow : Row := ⟨none, none, none⟩

/-- One primitive emission of the PDF builder, in source order:
`setAutoPageBreak` models `pdf.set_auto_page_break(True, margin)`,
`addPage` models `pdf.add_page()`, `setFont` models `pdf.set_font`,
`cellLine t c` models `pdf.cell(..., txt=t, ln=True, align='C' if c)`,
`multiCellText` models `pdf.multi_cell(0, 8, txt=...)`, and `lnSpace`
models `pdf.ln(h)`.  `pageNumberStamp` is the vocabulary for a footer
page-number emission; the source never subclasses `FPDF` or overrides
`footer`, so no code path produces it. -/
inductive Item where
  | setAutoPageBreak (margin : Nat)
  | addPage
  | setFont (family : String) (style : String) (size : Nat)
  | cellLine (text : String) (centered : Bool)
  | multiCellText (text : String)
  | lnSpace (h : Nat)
  | pageNumberStamp (page : Nat)
deriving DecidableEq, Repr

/-- The two failure messages of `generate_pdf_from_csv`'s range
validation (`csv-to-pdf.py` lines 20-26): "Start row ... is out of
range" and "End row ... is invalid".  Both are range errors; the source
has no separate empty-input error. -/
inductive RenderError where
  | startRowOutOfRange (startRow : Int) (total : Nat)
  | endRowInvalid (endRow startRow : Int) (total : Nat)
deriving DecidableEq, Repr

/-- Greedy line packing over a word list: the current line is extended
while the next word still fits in `width` columns.  Helper for
`textwrapFill`. -/
def fillGreedy (width : Nat) : String → List String → List String
  | cur, [] => [cur]
  | cur, w :: ws =>
    if cur.length + 1 + w.length ≤ width then fillGreedy width (cur ++ " " ++ w) ws
    else cur :: fillGreedy width w ws

/-- Models Python's `textwrap.fill(text, width)` as used at
`csv-to-pdf.py` line 63: whitespace runs collapse and words are packed
greedily into lines of at most `width` columns, joined by newlines.
(No claim in this development depends on the wrapped text's internal
shape; the body text is carried opaquely by `Item.multiCellText`.) -/
def textwrapFill (text : String) (width : Nat) : String :=
  match ((splitChars Char.isWhitespace text.data).map String.mk).filter (fun w => w ≠ "") with
  | [] => ""
  | w :: ws => String.intercalate "\n" (fillGreedy width w ws)

/-- The separator text `"=" * 80` of `csv-to-pdf.py` line 94. -/
def sepLine : String := "".pushn '=' 80

/-- The record header block, `csv-to-pdf.py` lines 47-59: default font,
bold 16pt centered title `"Problem <k>: <name>"` where `k` is the
1-based position inside the selection, then the bold "Problem
Statement:" heading and the body font. -/
def recordHeader (start_row i : Nat) (directory_name : String) : List Item :=
  [Item.addPage,
   Item.setFont "Arial" "" 11,
   Item.setFont "Arial" "B" 16,
   Item.cellLine ("Problem " ++ toString (i - start_row + 1) ++ ": " ++ directory_name) true,
   Item.lnSpace 10,
   Item.setFont "Arial" "B" 14,
   Item.cellLine "Problem Statement:" false,
   Item.setFont "Arial" "" 11,
   Item.lnSpace 5]

/-- The body-text section, `csv-to-pdf.py` lines 62-66: non-blank text
is wrapped to 80 columns and emitted as one `multi_cell`; blank or
missing text degrades to the placeholder cell. -/
def problemSection (refined_problem : String) : List Item :=
  if !isBlank refined_problem then
    [Item.multiCellText (textwrapFill refined_problem 80)]
  else
    [Item.cellLine "No problem statement available" false]

/-- The code-section heading block, `csv-to-pdf.py` lines 68-74. -/
def codeHeader : List Item :=
  [Item.lnSpace 10,
   Item.setFont "Arial" "B" 14,
   Item.cellLine "Java Code:" false,
   Item.setFont "Courier" "" 10,
   Item.lnSpace 5]

/-- The per-line code emission loop, `csv-to-pdf.py` lines 79-85: one
`pdf.cell` per right-trimmed non-blank source line, one `pdf.ln(6)` per
blank source line.  No wrapping or truncation occurs here. -/
def renderCodeLines (java_code : String) : List Item :=
  (splitNl java_code).flatMap fun line =>
    let clean_line := rstrip line
    if clean_line ≠ "" then [Item.cellLine clean_line false] else [Item.lnSpace 6]

/-- The code section, `csv-to-pdf.py` lines 77-88: blank or missing code
degrades to the placeholder cell in the body font. -/
def codeSection (java_code : String) : List Item :=
  if !isBlank java_code then renderCodeLines java_code
  else [Item.setFont "Arial" "" 11, Item.cellLine "No Java code available" false]

/-- The inter-record separator, `csv-to-pdf.py` lines 90-95: emitted
only when the current absolute row index is strictly below `end_row`. -/
def recordSep (i end_row : Nat) : List Item :=
  if i < end_row then
    [Item.lnSpace 15,
     Item.setFont "Arial" "B" 12,
     Item.cellLine sepLine true,
     Item.lnSpace 15]
  else []

/-- One iteration of the row loop of `generate_pdf_from_csv`
(`csv-to-pdf.py` lines 39-95), for the row with absolute 1-based index
`i`.  The three `row.get` accesses of lines 40-42 become `Option.getD`;
the Python truthiness test `if s and s.strip():` is `!isBlank s`
(both reject exactly the blank strings). -/
def renderRecord (start_row end_row i : Nat) (row : Row) : List Item :=
  recordHeader start_row i (row.directory_name.getD ("Row_" ++ toString i)) ++
  problemSection (row.refined_problem.getD "") ++
  codeHeader ++
  codeSection (row.java_code.getD "") ++
  recordSep i end_row

/-- The slice `rows[start_row - 1:end_row]` of `csv-to-pdf.py` line 28. -/
def selectedRows (rows : List Row) (start_row end_row : Nat) : List Row :=
  (rows.take end_row).drop (start_row - 1)

/-- The full emission stream of a successful run: the auto-page-break
configuration of line 36, then the loop
`for i, row in enumerate(selected_rows, start=start_row)` of line 39. -/
def renderDocument (rows : List Row) (start_row end_row : Nat) : List Item :=
  Item.setAutoPageBreak 15 ::
    ((selectedRows rows start_row end_row).enumFrom start_row).flatMap
      (fun p => renderRecord start_row end_row p.1 p.2)

/-- `generate_pdf_from_csv` (`csv-to-pdf.py` lines 6-105) after the CSV
has been read into `rows`: the two range checks of lines 20-26 reject
bad ranges before any PDF object exists (so an error means no output
artifact is produced), otherwise the document stream is built and
returned for serialization. -/
def generate_pdf_from_csv (rows : List Row) (start_row end_row : Int) :
    Except RenderError (List Item) :=
  if start_row < 1 ∨ start_row > (rows.length : Int) then
    Except.error (RenderError.startRowOutOfRange start_row rows.length)
  else if end_row < start_row ∨ end_row > (rows.length : Int) then
    Except.error (RenderError.endRowInvalid end_row start_row rows.length)
  else
    Except.ok (renderDocument rows start_row.toNat end_row.toNat)

/-- The records of a valid selection, rendered in increasing absolute
index order `start_row, ..., end_row`: index `i` carries the source row
`rows[i - 1]`.  Proven equal (after the configuration item) to the
output of `generate_pdf_from_csv` on every valid range. -/
def documentBlocks (rows : List Row) (start_row end_row : Nat) : List Item :=
  (List.range' start_row (end_row - start_row + 1)).flatMap
    (fun i => renderRecord start_row end_row i (rows.getD (i - 1) defaultRow))

/-- Recognizes a footer page-number emission. -/
def isPageStamp : Item → Bool
  | Item.pageNumberStamp _ => true
  | _ => false

/-- A CSV row of the enrichment pipeline after the load-time
normalization of `usinggroq.py` lines 125-129, which guarantees the
`refined_problem` key is present (defaulting to `""`); `readme_content`
is still accessed through `row.get(..., '')` at line 155, hence
`Option String`. -/
structure GRow where
  readme_content : Option String
  refined_problem : String
deriving DecidableEq, Repr

/-- The per-row body of the enrichment loop, `usinggroq.py` lines
160-168: a row whose `refined_problem` is falsy or whitespace-only gets
`refine(readme_content)`; any other row is left untouched.  `refine`
abstracts `refine_problem_statement` (a network call, outside the
embedding) as a deterministic function. -/
def processRow (refine : String → String) (row : GRow) : GRow :=
  if row.refined_problem = "" ∨ isBlank row.refined_problem then
    { row with refined_problem := refine (row.readme_content.getD "") }
  else row

/-- The loop `for i in range(start_row - 1, end_row): ...` of
`usinggroq.py` line 153, as an index-tracking map: position `k`
(0-based) is processed exactly when `start_row - 1 ≤ k < end_row`. -/
def processRowsLoop (refine : String → String) (start_row end_row : Nat) :
    Nat → List GRow → List GRow
  | _, [] => []
  | k, row :: rest =>
    (if start_row - 1 ≤ k ∧ k < end_row then processRow refine row else row) ::
      processRowsLoop refine start_row end_row (k + 1) rest

/-- The row-range processing pass of `process_csv_file`
(`usinggroq.py` lines 151-168) over the in-memory row list. -/
def process_csv_rows (refine : String → String) (rows : List GRow)
    (start_row end_row : Nat) : List GRow :=
  processRowsLoop refine start_row end_row 0 rows

/-- Sample row with all fields present. -/
def rowA : Row :=
  ⟨some "Find the sum of two numbers.", some "int x = 0;\nreturn x;", some "Two-Sum"⟩

/-- Sample row with all fields present. -/
def rowB : Row :=
  ⟨some "Reverse a string.", some "return s;", some "Reverse"⟩

/-- Sample row whose body text and code block are both present but
empty. -/
def rowEmptySections : Row := ⟨some "", some "", some "Empty-Dir"⟩

/-- A 200-character code line, wider than any page content width the
renderer targets. -/
def longLine : String := "".pushn 'a' 200

/-- Sample row whose `directory_name` key is absent. -/
def rowNoName : Row := ⟨some "Body text here for the row.", some "int y;", none⟩

/-- Sample enrichment row whose `refined_problem` is whitespace-only:
non-empty as a string, but blank in the eyes of the skip test. -/
def blankEnrichedRow : GRow := ⟨some "r", " "⟩

/-! ### Helper lemmas -/

theorem flatMap_congr {α β : Type} {l : List α} {f g : α → List β}
    (h : ∀ a ∈ l, f a = g a) : l.flatMap f = l.flatMap g := by
  induction l with
  | nil => rfl
  | cons a t ih =>
    simp only [List.flatMap_cons]
    rw [h a (List.mem_cons_self a t), ih (fun b hb => h b (List.mem_cons_of_mem a hb))]

theorem flatMap_enumFrom (g : Nat → Row → List Item) :
    ∀ (l : List Row) (n : Nat),
      (l.enumFrom n).flatMap (fun p => g p.1 p.2) =
        (List.range' n l.length).flatMap (fun i => g i (l.getD (i - n) defaultRow)) := by
  intro l
  induction l with
  | nil => intro n; rfl
  | cons a t ih =>
    intro n
    show g n a ++ (t.enumFrom (n + 1)).flatMap (fun p => g p.1 p.2) =
      (List.range' n (t.length + 1)).flatMap
        (fun i => g i ((a :: t).getD (i - n) defaultRow))
    rw [List.range'_succ, List.flatMap_cons, Nat.sub_self, ih (n + 1)]
    congr 1
    apply flatMap_congr
    intro i hi
    have hn : n + 1 ≤ i := (List.mem_range'_1.mp hi).1
    have : i - n = (i - (n + 1)) + 1 := by omega
    rw [this, List.getD_cons_succ]

theorem length_selectedRows (rows : List Row) (s e : Nat)
    (h1 : 1 ≤ s) (h2 : s ≤ e) (h3 : e ≤ rows.length) :
    (selectedRows rows s e).length = e - s + 1 := by
  simp only [selectedRows, List.length_drop, List.length_take]
  omega

theorem getD_selectedRows (rows : List Row) (s e k : Nat) (hk : s - 1 + k < e) :
    (selectedRows rows s e).getD k defaultRow = rows.getD (s - 1 + k) defaultRow := by
  simp only [selectedRows, List.getD_eq_getElem?_getD, List.getElem?_drop,
    List.getElem?_take, if_pos hk]

/-- On a valid range, `generate_pdf_from_csv` succeeds and its output is
the configuration item followed by the record blocks for indices
`start_row, ..., end_row` in increasing order. -/
theorem generate_valid_eq (rows : List Row) (s e : Nat)
    (h1 : 1 ≤ s) (h2 : s ≤ e) (h3 : e ≤ rows.length) :
    generate_pdf_from_csv rows (s : Int) (e : Int) =
      Except.ok (Item.setAutoPageBreak 15 :: documentBlocks rows s e) := by
  have hs : ¬((s : Int) < 1 ∨ (s : Int) > (rows.length : Int)) := by
    push_neg
    constructor <;> [exact_mod_cast h1; exact_mod_cast h2.trans h3]
  have he : ¬((e : Int) < (s : Int) ∨ (e : Int) > (rows.length : Int)) := by
    push_neg
    constructor <;> [exact_mod_cast h2; exact_mod_cast h3]
  rw [generate_pdf_from_csv, if_neg hs, if_neg he]
  congr 1
  rw [renderDocument, Int.toNat_ofNat, Int.toNat_ofNat]
  congr 1
  rw [flatMap_enumFrom (renderRecord s e), length_selectedRows rows s e h1 h2 h3,
    documentBlocks]
  apply flatMap_congr
  intro i hi
  have hmem := List.mem_range'_1.mp hi
  have hlt : s - 1 + (i - s) < e := by omega
  rw [getD_selectedRows rows s e (i - s) hlt]
  congr 2
  omega

theorem count_flatMap (a : Item) (l : List Nat) (f : Nat → List Item) :
    (l.flatMap f).count a = (l.map (fun i => (f i).count a)).sum := by
  induction l with
  | nil => rfl
  | cons x t ih => simp [List.count_append, ih]

theorem title_ne_sepLine (a b : String) : "Problem " ++ a ++ ": " ++ b ≠ sepLine := by
  intro h
  have h2 : ("Problem " ++ a ++ ": " ++ b).data.head? = sepLine.data.head? := by rw [h]
  have h3 : sepLine.data.head? = some '=' := by decide
  have h4 : ("Problem " ++ a ++ ": " ++ b).data.head? = some 'P' := by
    simp [String.data_append]
  rw [h3, h4] at h2
  exact absurd h2 (by decide)

theorem sep_not_mem_recordHeader (s i : Nat) (dn : String) :
    Item.cellLine sepLine true ∉ recordHeader s i dn := by
  intro h
  simp [recordHeader] at h
  exact title_ne_sepLine _ _ h.symm

theorem sep_not_mem_problemSection (rp : String) :
    Item.cellLine sepLine true ∉ problemSection rp := by
  intro h
  rw [problemSection] at h
  split at h <;> simp at h

theorem sep_not_mem_codeHeader : Item.cellLine sepLine true ∉ codeHeader := by decide

theorem sep_not_mem_renderCodeLines (jc : String) :
    Item.cellLine sepLine true ∉ renderCodeLines jc := by
  intro h
  simp only [renderCodeLines, List.mem_flatMap] at h
  obtain ⟨line, -, hline⟩ := h
  split at hline <;> simp at hline

theorem sep_not_mem_codeSection (jc : String) :
    Item.cellLine sepLine true ∉ codeSection jc := by
  intro h
  rw [codeSection] at h
  split at h
  · exact sep_not_mem_renderCodeLines jc h
  · simp at h

theorem count_sep_recordSep (i e : Nat) :
    (recordSep i e).count (Item.cellLine sepLine true) = if i < e then 1 else 0 := by
  rw [recordSep]
  split
  · decide
  · rfl

theorem count_sep_renderRecord (s e i : Nat) (row : Row) :
    (renderRecord s e i row).count (Item.cellLine sepLine true) = if i < e then 1 else 0 := by
  rw [renderRecord, List.count_append, List.count_append, List.count_append,
    List.count_append, List.count_eq_zero.mpr (sep_not_mem_recordHeader s i _),
    List.count_eq_zero.mpr (sep_not_mem_problemSection _),
    List.count_eq_zero.mpr sep_not_mem_codeHeader,
    List.count_eq_zero.mpr (sep_not_mem_codeSection _),
    count_sep_recordSep]
  simp

theorem addPage_not_mem_problemSection (rp : String) :
    Item.addPage ∉ problemSection rp := by
  intro h
  rw [problemSection] at h
  split at h <;> simp at h

theorem addPage_not_mem_renderCodeLines (jc : String) :
    Item.addPage ∉ renderCodeLines jc := by
  intro h
  simp only [renderCodeLines, List.mem_flatMap] at h
  obtain ⟨line, -, hline⟩ := h
  split at hline <;> simp at hline

theorem addPage_not_mem_codeSection (jc : String) :
    Item.addPage ∉ codeSection jc := by
  intro h
  rw [codeSection] at h
  split at h
  · exact addPage_not_mem_renderCodeLines jc h
  · simp at h

theorem addPage_not_mem_recordSep (i e : Nat) : Item.addPage ∉ recordSep i e := by
  intro h
  rw [recordSep] at h
  split at h <;> simp at h

theorem count_addPage_recordHeader (s i : Nat) (dn : String) :
    (recordHeader s i dn).count Item.addPage = 1 := by
  simp [recordHeader, List.count_cons]

theorem count_addPage_renderRecord (s e i : Nat) (row : Row) :
    (renderRecord s e i row).count Item.addPage = 1 := by
  rw [renderRecord, List.count_append, List.count_append, List.count_append,
    List.count_append, count_addPage_recordHeader,
    List.count_eq_zero.mpr (addPage_not_mem_problemSection _),
    List.count_eq_zero.mpr (show Item.addPage ∉ codeHeader by decide),
    List.count_eq_zero.mpr (addPage_not_mem_codeSection _),
    List.count_eq_zero.mpr (addPage_not_mem_recordSep i e)]

theorem count_addPage_documentBlocks (rows : List Row) (s e : Nat) :
    (documentBlocks rows s e).count Item.addPage = e - s + 1 := by
  rw [documentBlocks, count_flatMap]
  rw [List.map_congr_left (fun i _ => count_addPage_renderRecord s e i _)]
  simp [List.length_range']

theorem sum_if_lt_range' (s n : Nat) :
    ((List.range' s (n + 1)).map (fun i => if i < s + n then 1 else 0)).sum = n := by
  rw [List.range'_concat, List.map_append, List.sum_append]
  have h1 : (List.range' s n).map (fun i => if i < s + n then 1 else 0) =
      (List.range' s n).map (fun _ => 1) := by
    apply List.map_congr_left
    intro i hi
    have := List.mem_range'_1.mp hi
    rw [if_pos (by omega)]
  have h2 : ([s + 1 * n].map (fun i => if i < s + n then 1 else 0)).sum = 0 := by
    simp
  rw [h1, h2]
  simp [List.length_range']

theorem sum_if_lt_range'_of_eq (s n e : Nat) (he : e = s + n) :
    ((List.range' s (n + 1)).map (fun i => if i < e then 1 else 0)).sum = n := by
  subst he
  exact sum_if_lt_range' s n

theorem count_sep_documentBlocks (rows : List Row) (s e : Nat) (h2 : s ≤ e) :
    (documentBlocks rows s e).count (Item.cellLine sepLine true) = e - s := by
  rw [documentBlocks, count_flatMap]
  rw [List.map_congr_left (fun i _ => count_sep_renderRecord s e i _)]
  exact sum_if_lt_range'_of_eq s (e - s) e (by omega)

/-! ### Claim theorems -/

/-- C1: for every non-empty record sequence and valid selection range
(`1 ≤ start ≤ end ≤ total`), `generate_pdf_from_csv` succeeds and its
document is exactly the record blocks for the indices
`start, start+1, ..., end` in increasing order (after the page-break
configuration item), so it contains `end - start + 1` records — one
`addPage`-led block per selected record — and no block for any index
outside `[start, end]`. -/
theorem render_selected_count_and_order (rows : List Row) (s e : Nat)
    (h0 : rows ≠ []) (h1 : 1 ≤ s) (h2 : s ≤ e) (h3 : e ≤ rows.length) :
    generate_pdf_from_csv rows (s : Int) (e : Int) =
        Except.ok (Item.setAutoPageBreak 15 :: documentBlocks rows s e) ∧
      (documentBlocks rows s e).count Item.addPage = e - s + 1 :=
  ⟨generate_valid_eq rows s e h1 h2 h3, count_addPage_documentBlocks rows s e⟩

/-- C1 witness: a concrete two-record render with the full range. -/
theorem render_selected_count_and_order_witness :
    generate_pdf_from_csv [rowA, rowB] ((1 : Nat) : Int) ((2 : Nat) : Int) =
        Except.ok (Item.setAutoPageBreak 15 :: documentBlocks [rowA, rowB] 1 2) ∧
      (documentBlocks [rowA, rowB] 1 2).count Item.addPage = 2 - 1 + 1 :=
  render_selected_count_and_order [rowA, rowB] 1 2 (by decide) (by decide)
    (by decide) (by decide)

/-- C2: every invalid selection range — start below 1, start past the
row count, inverted `end < start`, or `end` past the row count — is
rejected by the validation of `csv-to-pdf.py` lines 20-26 before any
PDF object is created, so the call fails and no document is produced. -/
theorem invalid_range_rejected (rows : List Row) (s e : Int)
    (h : s < 1 ∨ (rows.length : Int) < s ∨ e < s ∨ (rows.length : Int) < e) :
    ∃ err, generate_pdf_from_csv rows s e = Except.error err := by
  rw [generate_pdf_from_csv]
  split
  · exact ⟨_, rfl⟩
  · split
    · exact ⟨_, rfl⟩
    · rename_i hc1 hc2
      exfalso
      push_neg at hc1 hc2
      rcases h with h | h | h | h <;> omega

/-- C2 witness: the inverted range `start=5, end=3` on a one-row CSV. -/
theorem invalid_range_rejected_witness :
    ∃ err, generate_pdf_from_csv [rowA] 5 3 = Except.error err :=
  invalid_range_rejected [rowA] 5 3 (by decide)

/-- C3 counterexample: on an empty record sequence the code takes the
very same range-check failure path (`startRowOutOfRange`, the "Start
row ... is out of range" message of `csv-to-pdf.py` line 21) that an
out-of-range start takes on a non-empty sequence; there is no distinct
empty-input error anywhere in the source. -/
theorem empty_input_same_error_as_range :
    generate_pdf_from_csv [] 1 1 =
        Except.error (RenderError.startRowOutOfRange 1 0) ∧
      generate_pdf_from_csv [rowA] 5 7 =
        Except.error (RenderError.startRowOutOfRange 5 1) :=
  ⟨by decide, by decide⟩

/-- C3 amended: when the record sequence is empty, rendering fails for
every requested range, but with the same `RangeError`
(`startRowOutOfRange`) used for invalid ranges, not a distinct
empty-input error. -/
theorem empty_input_range_error (s e : Int) :
    generate_pdf_from_csv [] s e =
      Except.error (RenderError.startRowOutOfRange s 0) := by
  have h : s < 1 ∨ s > (([] : List Row).length : Int) := by
    simp only [List.length_nil, Nat.cast_zero]
    omega
  rw [generate_pdf_from_csv, if_pos h]
  rfl

/-- C4 counterexample: a record with empty body and empty code renders
with the placeholders "No problem statement available" and "No Java
code available" (`csv-to-pdf.py` lines 66 and 88); the text
"No content available" claimed by the spec appears nowhere in the
rendered record. -/
theorem no_content_available_absent :
    Item.cellLine "No content available" false ∉ renderRecord 1 1 1 rowEmptySections ∧
    Item.cellLine "No content available" true ∉ renderRecord 1 1 1 rowEmptySections ∧
    Item.multiCellText "No content available" ∉ renderRecord 1 1 1 rowEmptySections ∧
    Item.cellLine "No problem statement available" false ∈ renderRecord 1 1 1 rowEmptySections := by
  decide

/-- C4 amended: a selected record with empty `body_text` and empty
`code_block` still renders its title line and both labeled section
headings, with the placeholder texts "No problem statement available"
and "No Java code available" substituted for the missing content (and
`renderRecord` is total, so no exception is possible). -/
theorem empty_sections_render_placeholders (s e i : Nat) (row : Row)
    (hb : row.refined_problem.getD "" = "") (hc : row.java_code.getD "" = "") :
    Item.cellLine ("Problem " ++ toString (i - s + 1) ++ ": " ++
        row.directory_name.getD ("Row_" ++ toString i)) true ∈ renderRecord s e i row ∧
    Item.cellLine "Problem Statement:" false ∈ renderRecord s e i row ∧
    Item.cellLine "Java Code:" false ∈ renderRecord s e i row ∧
    Item.cellLine "No problem statement available" false ∈ renderRecord s e i row ∧
    Item.cellLine "No Java code available" false ∈ renderRecord s e i row := by
  have hbb : isBlank (row.refined_problem.getD "") = true := by rw [hb]; rfl
  have hcb : isBlank (row.java_code.getD "") = true := by rw [hc]; rfl
  refine ⟨?_, ?_, ?_, ?_, ?_⟩ <;>
    simp [renderRecord, recordHeader, problemSection, codeHeader, codeSection, hbb, hcb]

/-- C4 witness: the amended claim at the concrete empty-sections row. -/
theorem empty_sections_render_placeholders_witness :
    Item.cellLine ("Problem " ++ toString (1 - 1 + 1) ++ ": " ++
        (rowEmptySections.directory_name.getD ("Row_" ++ toString 1))) true ∈
          renderRecord 1 1 1 rowEmptySections ∧
    Item.cellLine "Problem Statement:" false ∈ renderRecord 1 1 1 rowEmptySections ∧
    Item.cellLine "Java Code:" false ∈ renderRecord 1 1 1 rowEmptySections ∧
    Item.cellLine "No problem statement available" false ∈ renderRecord 1 1 1 rowEmptySections ∧
    Item.cellLine "No Java code available" false ∈ renderRecord 1 1 1 rowEmptySections :=
  empty_sections_render_placeholders 1 1 1 rowEmptySections (by decide) (by decide)

/-- C5: on every valid range the document carries the `"=" * 80`
separator line after every rendered record except the last, so a
selection of `n = end - start + 1` records yields exactly `n - 1`
separator lines. -/
theorem separator_after_all_but_last (rows : List Row) (s e : Nat)
    (h1 : 1 ≤ s) (h2 : s ≤ e) (h3 : e ≤ rows.length) :
    generate_pdf_from_csv rows (s : Int) (e : Int) =
        Except.ok (Item.setAutoPageBreak 15 :: documentBlocks rows s e) ∧
      (Item.setAutoPageBreak 15 :: documentBlocks rows s e).count
          (Item.cellLine sepLine true) = (e - s + 1) - 1 := by
  refine ⟨generate_valid_eq rows s e h1 h2 h3, ?_⟩
  rw [List.count_cons, count_sep_documentBlocks rows s e h2]
  simp

/-- C5 witness: `start=2, end=4` on four records yields exactly 2
separator lines, as the spec's example demands. -/
theorem separator_after_all_but_last_witness :
    generate_pdf_from_csv [rowA, rowB, rowA, rowB] ((2 : Nat) : Int) ((4 : Nat) : Int) =
        Except.ok (Item.setAutoPageBreak 15 ::
          documentBlocks [rowA, rowB, rowA, rowB] 2 4) ∧
      (Item.setAutoPageBreak 15 :: documentBlocks [rowA, rowB, rowA, rowB] 2 4).count
          (Item.cellLine sepLine true) = (4 - 2 + 1) - 1 :=
  separator_after_all_but_last [rowA, rowB, rowA, rowB] 2 4 (by decide) (by decide)
    (by decide)

set_option maxRecDepth 8192 in
/-- C6 counterexample: a 200-character code line is emitted as exactly
one `pdf.cell` carrying the whole line (`csv-to-pdf.py` line 83); no
wrapping onto continuation lines takes place anywhere in the code
path. -/
theorem long_code_line_not_wrapped :
    longLine.length = 200 ∧
    renderCodeLines longLine = [Item.cellLine longLine false] := by
  decide

/-- C6 amended: every source code line, of any width, is rendered as
exactly one output line in source order — the right-trimmed line as one
fixed-width cell when non-blank, a blank line otherwise — so nothing
except trailing whitespace is lost, but overwide lines are not wrapped
onto continuation lines. -/
theorem code_lines_rendered_one_to_one (java_code : String) :
    renderCodeLines java_code =
      (splitNl java_code).map (fun line =>
        if rstrip line ≠ "" then Item.cellLine (rstrip line) false
        else Item.lnSpace 6) := by
  rw [renderCodeLines]
  induction splitNl java_code with
  | nil => rfl
  | cons a t ih =>
    rw [List.flatMap_cons, List.map_cons, ih]
    by_cases h : rstrip a ≠ "" <;> simp [h]

/-- C7 counterexample: a successfully rendered one-record document has
one page (`pdf.add_page` fires once) and zero page-number stamps: the
source instantiates `FPDF()` without subclassing, never overrides
`footer`, and calls no page-numbering API, so no stamp is emitted for
the finalized page. -/
theorem page_without_stamp :
    generate_pdf_from_csv [rowA] 1 1 =
        Except.ok (Item.setAutoPageBreak 15 :: documentBlocks [rowA] 1 1) ∧
      (Item.setAutoPageBreak 15 :: documentBlocks [rowA] 1 1).count Item.addPage = 1 ∧
      (Item.setAutoPageBreak 15 :: documentBlocks [rowA] 1 1).countP isPageStamp = 0 := by
  refine ⟨by decide, by decide, by decide⟩

theorem stamp_not_mem_renderRecord (s e i : Nat) (row : Row) (p : Nat) :
    Item.pageNumberStamp p ∉ renderRecord s e i row := by
  intro h
  rw [renderRecord] at h
  simp only [List.mem_append] at h
  rcases h with (((h | h) | h) | h) | h
  · simp [recordHeader] at h
  · rw [problemSection] at h
    split at h <;> simp at h
  · simp [codeHeader] at h
  · rw [codeSection] at h
    split at h
    · simp only [renderCodeLines, List.mem_flatMap] at h
      obtain ⟨line, -, hline⟩ := h
      split at hline <;> simp at hline
    · simp at h
  · rw [recordSep] at h
    split at h <;> simp at h

theorem isPageStamp_false_of_mem_renderRecord (s e i : Nat) (row : Row)
    (it : Item) (h : it ∈ renderRecord s e i row) : isPageStamp it = false := by
  cases it <;> first
    | rfl
    | exact absurd h (stamp_not_mem_renderRecord s e i row _)

theorem countP_flatMap {α : Type} (p : Item → Bool) (l : List α)
    (f : α → List Item) :
    (l.flatMap f).countP p = (l.map (fun x => (f x).countP p)).sum := by
  induction l with
  | nil => rfl
  | cons x t ih => simp [List.countP_append, ih]

/-- C7 amended: no finalized page of any rendered document carries a
page-number stamp — the emission stream of every successful render
contains zero footer/page-number items. -/
theorem rendered_document_has_no_page_stamp (rows : List Row) (s e : Int)
    (doc : List Item) (h : generate_pdf_from_csv rows s e = Except.ok doc) :
    doc.countP isPageStamp = 0 := by
  rw [generate_pdf_from_csv] at h
  split at h
  · exact absurd h (by simp)
  · split at h
    · exact absurd h (by simp)
    · injection h with h'
      subst h'
      rw [renderDocument, List.countP_cons]
      have h0 : isPageStamp (Item.setAutoPageBreak 15) = false := rfl
      rw [h0, if_neg (by simp)]
      rw [List.countP_eq_zero.mpr]
      intro a ha
      rw [List.mem_flatMap] at ha
      obtain ⟨pr, -, hpr⟩ := ha
      rw [isPageStamp_false_of_mem_renderRecord _ _ _ _ _ hpr]
      simp

/-- C7 witness for the amended claim, on a concrete one-record render. -/
theorem rendered_document_has_no_page_stamp_witness :
    (Item.setAutoPageBreak 15 :: documentBlocks [rowB] 1 1).countP isPageStamp = 0 :=
  rendered_document_has_no_page_stamp [rowB] 1 1
    (Item.setAutoPageBreak 15 :: documentBlocks [rowB] 1 1) (by decide)

/-- C8: when the selected record at absolute 1-based index `i` has no
`directory_name`, its rendered title line uses the synthesized label
`"Row_<i>"` (`csv-to-pdf.py` line 42), where `i` is the record's
position in the source collection, not in the selection. -/
theorem missing_title_falls_back_to_row_index (rows : List Row) (s e i : Nat)
    (h1 : 1 ≤ s) (h2 : s ≤ e) (h3 : e ≤ rows.length) (h4 : s ≤ i) (h5 : i ≤ e)
    (h6 : (rows.getD (i - 1) defaultRow).directory_name = none) :
    ∃ doc, generate_pdf_from_csv rows (s : Int) (e : Int) = Except.ok doc ∧
      Item.cellLine ("Problem " ++ toString (i - s + 1) ++ ": " ++
        ("Row_" ++ toString i)) true ∈ doc := by
  refine ⟨_, generate_valid_eq rows s e h1 h2 h3, ?_⟩
  apply List.mem_cons_of_mem
  rw [documentBlocks]
  refine List.mem_flatMap.mpr ⟨i, List.mem_range'_1.mpr ⟨h4, by omega⟩, ?_⟩
  rw [renderRecord, h6, Option.getD_none]
  simp [recordHeader, List.mem_append]

/-- C8 witness: a one-row collection whose row lacks a directory name. -/
theorem missing_title_falls_back_to_row_index_witness :
    ∃ doc, generate_pdf_from_csv [rowNoName] ((1 : Nat) : Int) ((1 : Nat) : Int) =
        Except.ok doc ∧
      Item.cellLine ("Problem " ++ toString (1 - 1 + 1) ++ ": " ++
        ("Row_" ++ toString 1)) true ∈ doc :=
  missing_title_falls_back_to_row_index [rowNoName] 1 1 1 (by decide) (by decide)
    (by decide) (by decide) (by decide) (by decide)

/-- C9 counterexample: a row whose `refined_problem` is the non-empty
string `" "` is not skipped — `usinggroq.py` line 161 tests
`strip() == ""`, not emptiness — so a subsequent run recomputes and
changes its enrichment value. -/
theorem whitespace_enrichment_recomputed :
    (" " : String) ≠ "" ∧
    process_csv_rows (fun _ => "recomputed") [blankEnrichedRow] 1 1 =
      [⟨some "r", "recomputed"⟩] ∧
    ([(⟨some "r", "recomputed"⟩ : GRow)] ≠ [blankEnrichedRow]) := by
  decide

theorem processRow_idem (refine : String → String) (row : GRow) :
    processRow refine (processRow refine row) = processRow refine row := by
  unfold processRow
  split
  · split <;> rfl
  · rfl

theorem processRowsLoop_idem (refine : String → String) (s e : Nat) :
    ∀ (k : Nat) (l : List GRow),
      processRowsLoop refine s e k (processRowsLoop refine s e k l) =
        processRowsLoop refine s e k l := by
  intro k l
  induction l generalizing k with
  | nil => rfl
  | cons r t ih =>
    by_cases hc : (s - 1 ≤ k ∧ k < e)
    · simp only [processRowsLoop, if_pos hc, processRow_idem, ih (k + 1)]
    · simp only [processRowsLoop, if_neg hc, ih (k + 1)]

/-- C9 amended: the enrichment pass skips exactly the rows whose
`refined_problem` is non-blank (contains a non-whitespace character) —
blank, including whitespace-only, values are recomputed — and, for a
fixed refinement function, the pass is idempotent: running it twice
over the same rows and range equals running it once. -/
theorem enrichment_skip_and_idempotent :
    (∀ (refine : String → String) (row : GRow),
        isBlank row.refined_problem = false → processRow refine row = row) ∧
    (∀ (refine : String → String) (rows : List GRow) (s e : Nat),
        process_csv_rows refine (process_csv_rows refine rows s e) s e =
          process_csv_rows refine rows s e) := by
  constructor
  · intro refine row hb
    rw [processRow, if_neg]
    intro hcond
    rcases hcond with h | h
    · rw [h] at hb
      exact absurd hb (by decide)
    · rw [hb] at h
      exact absurd h (by decide)
  · intro refine rows s e
    exact processRowsLoop_idem refine s e 0 rows

/-- C9 witness: a non-blank row is left unchanged, and a concrete
two-pass run equals the one-pass run. -/
theorem enrichment_skip_and_idempotent_witness :
    processRow (fun _ => "Q") ⟨some "r", "done"⟩ = ⟨some "r", "done"⟩ ∧
    process_csv_rows (fun _ => "Q")
        (process_csv_rows (fun _ => "Q") [⟨some "r", ""⟩] 1 1) 1 1 =
      process_csv_rows (fun _ => "Q") [⟨some "r", ""⟩] 1 1 :=
  ⟨enrichment_skip_and_idempotent.1 (fun _ => "Q") ⟨some "r", "done"⟩ (by decide),
   enrichment_skip_and_idempotent.2 (fun _ => "Q") [⟨some "r", ""⟩] 1 1⟩

/-- C10: for every selected record — the first included — the loop body
of `csv-to-pdf.py` line 45 unconditionally emits `pdf.add_page()`
before any of the record's content, and emits no further explicit page
break, so each record's content starts on a fresh page and no two
records share one; the behavior holds for all inputs, with no
configuration parameter that could select a continuous-flow layout. -/
theorem record_always_starts_new_page (s e i : Nat) (row : Row) :
    (renderRecord s e i row).head? = some Item.addPage ∧
    (renderRecord s e i row).count Item.addPage = 1 :=
  ⟨rfl, count_addPage_renderRecord s e i row⟩
